import Mathlib

/-!
Verification development for the Control Concealer module
(`scripts/control-concealer.js`): a shallow embedding of its profile store,
visibility applier, edit-mode controller and legacy-format migration,
together with theorems settling the specified properties.
-/

namespace ControlConcealer

/-- JavaScript object property read `obj[k]`, on an object represented as an
ordered association list (JS objects have unique keys). -/
def lookupEntry {α : Type} : List (String × α) → String → Option α
  | [], _ => none
  | kv :: rest, k => if kv.1 == k then some kv.2 else lookupEntry rest k

/-- JavaScript object property assignment `obj[k] = v`: overwrite the entry for
`k` in place if present, else append a new entry (JS preserves insertion order). -/
def setEntry {α : Type} : List (String × α) → String → α → List (String × α)
  | [], k, v => [(k, v)]
  | kv :: rest, k, v => if kv.1 == k then (k, v) :: rest else kv :: setEntry rest k v

/-- A profile: localization-key display name plus the selector-to-hidden map. -/
structure Profile where
  name : String
  hiddenElements : List (String × Bool)
deriving DecidableEq, Repr

abbrev HiddenMap := List (String × Bool)

abbrev ProfileCollection := List (String × Profile)

/-- `ControlConcealer.DEFAULT_PROFILES` from the source. -/
def DEFAULT_PROFILES : ProfileCollection :=
  [("dev", { name := "CONTROLCONCEALER.profile.dev", hiddenElements := [] }),
   ("prod", { name := "CONTROLCONCEALER.profile.prod", hiddenElements := [] })]

/-- `ControlConcealer.UI_SELECTORS` from the source: the static catalog of UI
element selectors the module can hide. -/
def UI_SELECTORS : List String := [
  "#controls",
  ".scene-control",
  ".control-tool",
  "#sidebar",
  "#sidebar-tabs",
  "#sidebar-tabs .item[data-tab=\"chat\"]",
  "#sidebar-tabs .item[data-tab=\"combat\"]",
  "#sidebar-tabs .item[data-tab=\"scenes\"]",
  "#sidebar-tabs .item[data-tab=\"actors\"]",
  "#sidebar-tabs .item[data-tab=\"items\"]",
  "#sidebar-tabs .item[data-tab=\"journal\"]",
  "#sidebar-tabs .item[data-tab=\"tables\"]",
  "#sidebar-tabs .item[data-tab=\"cards\"]",
  "#sidebar-tabs .item[data-tab=\"playlists\"]",
  "#sidebar-tabs .item[data-tab=\"compendium\"]",
  "#sidebar-tabs .item[data-tab=\"settings\"]",
  "#players",
  "#player-list .player",
  "#hotbar",
  "#hotbar .macro",
  "#hotbar .bar-controls",
  "#ui-top .scene-control",
  "#navigation",
  "#nav-toggle",
  "#scene-list .scene",
  "#chat",
  "#chat-controls",
  "#chat-form",
  "#combat",
  "#combat-tracker",
  "#combat-controls",
  "#audio-controls",
  "#ui-right .control",
  "#pause",
  "#fps",
  "#logo"]

/-- Modelled from the spec: the host utility deep merge
(`foundry.utils.mergeObject`) at the level of a nested plain object, which
assigns every entry of `other` into (a clone of) `orig`, later entries winning. -/
def assignAll {α : Type} (orig other : List (String × α)) : List (String × α) :=
  other.foldl (fun acc kv => setEntry acc kv.1 kv.2) orig

/-- Modelled from the spec: host deep merge of two profiles — every field of the
persisted profile overwrites the default's, and the nested `hiddenElements`
objects are merged key by key with the persisted entries winning. -/
def mergeProfile (orig other : Profile) : Profile :=
  { name := other.name,
    hiddenElements := assignAll orig.hiddenElements other.hiddenElements }

/-- Modelled from the spec: host deep merge of two profile collections — a
profile id present in both is merged recursively via `mergeProfile`, one present
in only one side is kept as is. -/
def mergeCollections (orig other : ProfileCollection) : ProfileCollection :=
  other.foldl
    (fun acc kv =>
      match lookupEntry acc kv.1 with
      | some q => setEntry acc kv.1 (mergeProfile q kv.2)
      | none => setEntry acc kv.1 kv.2)
    orig

/-- `getProfiles` from the source: merge the persisted blob (absent data treated
as the empty object, per `savedProfiles || {}`) onto a fresh copy of the
built-in defaults. -/
def getProfiles (saved : Option ProfileCollection) : ProfileCollection :=
  mergeCollections DEFAULT_PROFILES (saved.getD [])

/-- Well-formedness of a JS-object model: keys are unique. -/
def wfKeys {α : Type} (m : List (String × α)) : Prop := (m.map Prod.fst).Nodup

instance {α : Type} (m : List (String × α)) : Decidable (wfKeys m) := by
  unfold wfKeys; infer_instance

/-- Well-formedness of a profile collection: unique profile ids, and unique
selector keys inside every profile. -/
def wfColl (c : ProfileCollection) : Prop :=
  wfKeys c ∧ ∀ kv ∈ c, wfKeys kv.2.hiddenElements

instance (c : ProfileCollection) : Decidable (wfColl c) := by
  unfold wfColl; infer_instance

/-- A live DOM element as the module sees it: the set of catalog-style CSS
selectors that match it, and whether it currently carries the
`control-concealer-hide` marker class. -/
structure Elem where
  sels : List String
  hidden : Bool
deriving DecidableEq, Repr

/-- `$(sel)` membership test: does the selector match this element. -/
def elemMatch (sel : String) (e : Elem) : Bool := e.sels.contains sel

/-- Is the element matched by at least one selector of the static catalog
(the combined selector `UI_SELECTORS.join(', ')`). -/
def catalogMatched (e : Elem) : Bool := UI_SELECTORS.any (fun sel => elemMatch sel e)

/-- `$(UI_SELECTORS.join(', ')).removeClass('control-concealer-hide')`:
strip the marker class from every catalog-matched element. -/
def resetCatalog (dom : List Elem) : List Elem :=
  dom.map (fun e => if catalogMatched e then { e with hidden := false } else e)

/-- `$(selector).addClass('control-concealer-hide')`. -/
def addClassBySel (sel : String) (dom : List Elem) : List Elem :=
  dom.map (fun e => if elemMatch sel e then { e with hidden := true } else e)

/-- The `Object.entries(profile.hiddenElements || {}).forEach` loop of
`applyProfile`/`applyVisualState`: add the marker class to every element
matched by a selector whose entry is `true`. (The source's special branch for
sidebar-tab selectors performs the same `addClass` as the general branch.) -/
def addHidden (m : HiddenMap) (dom : List Elem) : List Elem :=
  m.foldl (fun d kv => if kv.2 then addClassBySel kv.1 d else d) dom

/-- Notification message keys used by the module. -/
def errEditActive : String := "CONTROLCONCEALER.error.EditActive"

def infoEditModeActive : String := "CONTROLCONCEALER.info.EditModeActive"

def infoEditModeEnd : String := "CONTROLCONCEALER.info.EditModeEnd"

/-- A sparse legacy control/tool descriptor: we keep only the list of property
names present on the object, since the migration only tests
`Object.keys(x).length > 0`. -/
structure LegacyControl where
  keys : List String
deriving DecidableEq, Repr

/-- A legacy `hiddentools` slot: its property names plus its optional `tools`
array of sparse tool descriptors. -/
structure LegacyTools where
  keys : List String
  tools : Option (List LegacyControl)
deriving DecidableEq, Repr

/-- A legacy per-tab flag (`dev-tab` / `prod-tab`). -/
structure LegacyTab where
  hiddencontrols : List LegacyControl
  hiddentools : List LegacyTools
  hiddentabs : List String
deriving DecidableEq, Repr

/-- The controller state: the in-memory fields of the singleton, the host-side
per-user flag and per-client settings blob, the legacy per-user flags, the live
DOM, the body-level `cc-hide-active` indicator, and the notifications issued
so far. -/
structure CCState where
  editing : Bool
  activeProfile : String
  profiles : ProfileCollection
  userActiveFlag : Option String
  settingsProfiles : Option ProfileCollection
  devTab : Option LegacyTab
  prodTab : Option LegacyTab
  dom : List Elem
  bodyHideActive : Bool
  editHandlers : Bool
  notifications : List String
deriving DecidableEq, Repr

/-- `applyVisualState` from the source: guard on the active profile, reset the
marker class on the whole catalog, then re-add it per the profile's
`hiddenElements`. -/
def applyVisualStateDom (profiles : ProfileCollection) (active : String)
    (dom : List Elem) : List Elem :=
  match lookupEntry profiles active with
  | none => dom
  | some p => addHidden p.hiddenElements (resetCatalog dom)

/-- The unconditional tail of `applyProfile` (source lines 315-342): guard on
the active profile, reset the catalog, then either actually hide (non-edit:
set the body-level `cc-hide-active` indicator and add the marker class per
`hiddenElements`) or show everything with visual indicators (edit: clear the
body-level indicator and run `applyVisualState`). -/
def applyProfileRender (st : CCState) : CCState :=
  match lookupEntry st.profiles st.activeProfile with
  | none => st
  | some p =>
    let dom1 := resetCatalog st.dom
    if st.editing then
      { st with bodyHideActive := false,
                dom := applyVisualStateDom st.profiles st.activeProfile dom1 }
    else
      { st with bodyHideActive := true,
                dom := addHidden p.hiddenElements dom1 }

/-- `applyProfile(profileId)` from the source: with a profile id argument it
first rejects the switch while editing with a user-visible error, otherwise
adopts a known id as the active profile and persists the per-user flag; then
(and also when called with no argument) it renders the active profile. -/
def applyProfileStep (st : CCState) (profileId : Option String) : CCState :=
  match profileId with
  | some pid =>
    if st.editing then
      { st with notifications := st.notifications ++ [errEditActive] }
    else
      let st' :=
        if (lookupEntry st.profiles pid).isSome then
          { st with activeProfile := pid, userActiveFlag := some pid }
        else st
      applyProfileRender st'
  | none => applyProfileRender st

/-- One step of the `UI_SELECTORS.forEach` loop of `saveCurrentProfile`:
if the selector matches at least one live element (`$elements.length`), record
whether any matched element carries the marker class (`hasClass`). -/
def recomputeStep (dom : List Elem) (acc : HiddenMap) (sel : String) : HiddenMap :=
  let matched := dom.filter (fun e => elemMatch sel e)
  if 0 < matched.length then setEntry acc sel (matched.any (fun e => e.hidden)) else acc

/-- The fresh `hiddenElements` object built by `saveCurrentProfile`. -/
def recomputeHidden (dom : List Elem) : HiddenMap :=
  UI_SELECTORS.foldl (recomputeStep dom) []

/-- `$(sel).hasClass('control-concealer-hide')` against the live DOM: does some
element matched by `sel` carry the marker class. -/
def domHasHidden (dom : List Elem) (sel : String) : Bool :=
  (dom.filter (fun e => elemMatch sel e)).any (fun e => e.hidden)

/-- `saveCurrentProfile` from the source: rebuild `hiddenElements` from the
live DOM, replace the active profile's map with it (the object spread keeps the
other fields; when the active profile is absent the spread contributes nothing,
modelled as an empty name), and persist the collection. -/
def saveCurrentProfile (st : CCState) : CCState :=
  let hiddenElements := recomputeHidden st.dom
  let newProfile : Profile :=
    { name := ((lookupEntry st.profiles st.activeProfile).map Profile.name).getD "",
      hiddenElements := hiddenElements }
  let profiles := setEntry st.profiles st.activeProfile newProfile
  { st with profiles := profiles, settingsProfiles := some profiles }

/-- `toggleEditMode` from the source: flip the flag; on entry clear the
body-level indicator, notify, and attach the edit-mode listeners (which apply
the visual state); on exit save the current profile, set the body-level
indicator, notify, and detach the listeners; finally re-render via
`applyProfile()`. -/
def toggleEditMode (st : CCState) : CCState :=
  let st1 := { st with editing := !st.editing }
  let st2 :=
    if st1.editing then
      { st1 with bodyHideActive := false,
                 notifications := st1.notifications ++ [infoEditModeActive],
                 editHandlers := true,
                 dom := applyVisualStateDom st1.profiles st1.activeProfile st1.dom }
    else
      let stS := saveCurrentProfile st1
      { stS with bodyHideActive := true,
                 notifications := stS.notifications ++ [infoEditModeEnd],
                 editHandlers := false }
  applyProfileStep st2 none

/-- Modelled from the spec: the module's stylesheet (not under `src/`) hides an
element exactly when the body-level `cc-hide-active` indicator is set and the
element carries the marker class; otherwise the element is visible. -/
def elemVisible (bodyHideActive : Bool) (e : Elem) : Bool :=
  !(bodyHideActive && e.hidden)

/-- Does some entry of the map name a selector that is `true` and matches an
element with selector list `sels`. -/
def hasTrueMatch (m : HiddenMap) (sels : List String) : Bool :=
  m.any (fun kv => kv.2 && sels.contains kv.1)

/-- The pointwise element update performed by one full render pass: reset the
marker class if catalog-matched, then set it if some `true` entry matches. -/
def renderElem (m : HiddenMap) (e : Elem) : Elem :=
  { e with hidden := (if catalogMatched e then false else e.hidden) || hasTrueMatch m e.sels }

/-- The DOM produced by one render pass, as a function of the data it reads. -/
def renderDomF (profiles : ProfileCollection) (active : String) (dom : List Elem) :
    List Elem :=
  match lookupEntry profiles active with
  | none => dom
  | some p => dom.map (renderElem p.hiddenElements)

/-- The body-level indicator produced by one render pass. -/
def renderBodyF (profiles : ProfileCollection) (active : String) (editing body : Bool) :
    Bool :=
  match lookupEntry profiles active with
  | none => body
  | some _ => !editing

/-- A small concrete controller state used to evaluate the theorems on. -/
def exampleState : CCState :=
  { editing := false, activeProfile := "prod", profiles := DEFAULT_PROFILES,
    userActiveFlag := none, settingsProfiles := none, devTab := none, prodTab := none,
    dom := [{ sels := ["#chat"], hidden := true }, { sels := ["custom"], hidden := false }],
    bodyHideActive := true, editHandlers := false, notifications := [] }

/-- A concrete state in edit mode whose active profile has `#chat` hidden while
the live DOM contains no element at all. -/
def claim1State : CCState :=
  { editing := true, activeProfile := "prod",
    profiles := [("prod", { name := "CONTROLCONCEALER.profile.prod",
                            hiddenElements := [("#chat", true)] })],
    userActiveFlag := none, settingsProfiles := none, devTab := none, prodTab := none,
    dom := [], bodyHideActive := false, editHandlers := true, notifications := [] }

/-- The selector written by migration for a hidden control at legacy array
index `i`, with `i + 1` already applied (1-based CSS child indexing). -/
def sceneControlSelector (n : Nat) : String :=
  ".scene-control:nth-child(" ++ toString n ++ ")"

/-- The compound descendant selector written by migration for a hidden tool. -/
def toolSelector (ci ti : Nat) : String :=
  ".scene-control:nth-child(" ++ toString ci
    ++ ") + .sub-controls .control-tool:nth-child(" ++ toString ti ++ ")"

/-- The sidebar-tab selector written by migration for a legacy hidden tab. -/
def sidebarTabSelector (tabId : String) : String :=
  "#sidebar-tabs .item[data-tab=\"" ++ tabId ++ "\"]"

/-- The `hiddencontrols` loop body of `migrateOldFormat`: a non-empty sparse
descriptor at array index `i` sets the nth-child selector for `i + 1`. -/
def convertControlsStep (acc : HiddenMap) (icd : Nat × LegacyControl) : HiddenMap :=
  if 0 < icd.2.keys.length then
    setEntry acc (sceneControlSelector (icd.1 + 1)) true
  else acc

/-- The `hiddentools` loop body of `migrateOldFormat`: a non-empty slot with a
`tools` array sets the compound selector for every non-empty tool descriptor. -/
def convertToolsStep (acc : HiddenMap) (itd : Nat × LegacyTools) : HiddenMap :=
  if 0 < itd.2.keys.length then
    match itd.2.tools with
    | some tools =>
      tools.enum.foldl
        (fun acc2 jt =>
          if 0 < jt.2.keys.length then
            setEntry acc2 (toolSelector (itd.1 + 1) (jt.1 + 1)) true
          else acc2) acc
    | none => acc
  else acc

/-- The `hiddentabs` loop body of `migrateOldFormat`. -/
def convertTabsStep (acc : HiddenMap) (tabId : String) : HiddenMap :=
  setEntry acc (sidebarTabSelector tabId) true

/-- The conversion of one legacy tab performed by `migrateOldFormat`: the three
sequential forEach loops over `hiddencontrols`, `hiddentools` and `hiddentabs`
building a fresh `hiddenElements` object. -/
def convertLegacyTab (tab : LegacyTab) : HiddenMap :=
  let h1 := tab.hiddencontrols.enum.foldl convertControlsStep []
  let h2 := tab.hiddentools.enum.foldl convertToolsStep h1
  tab.hiddentabs.foldl convertTabsStep h2

/-- `migrateOldFormat` from the source: if either legacy per-tab flag exists,
convert each present tab, overwrite the corresponding profile entirely, persist
the collection, and delete both legacy flags; otherwise do nothing. -/
def migrateOldFormat (st : CCState) : CCState :=
  if st.devTab.isSome || st.prodTab.isSome then
    let profiles1 :=
      match st.devTab with
      | some t => setEntry st.profiles "dev"
          { name := "CONTROLCONCEALER.profile.dev", hiddenElements := convertLegacyTab t }
      | none => st.profiles
    let profiles2 :=
      match st.prodTab with
      | some t => setEntry profiles1 "prod"
          { name := "CONTROLCONCEALER.profile.prod", hiddenElements := convertLegacyTab t }
      | none => profiles1
    { st with
      profiles := profiles2,
      settingsProfiles := some profiles2,
      devTab := none,
      prodTab := none }
  else st

/-- The legacy `dev-tab` value of the spec's migration scenario. -/
def exampleLegacyDevTab : LegacyTab :=
  { hiddencontrols := [{ keys := [] }, { keys := ["icon", "name", "title"] }],
    hiddentools := [], hiddentabs := ["chat"] }

/-- A legacy tab exercising the `hiddentools` conversion. -/
def exampleLegacyToolsTab : LegacyTab :=
  { hiddencontrols := [],
    hiddentools := [{ keys := ["tools"], tools := some [{ keys := [] }, { keys := ["icon"] }] }],
    hiddentabs := [] }

/-- The spec's migration scenario state: `dev-tab` present, `prod-tab` absent. -/
def exampleMigrationState : CCState :=
  { exampleState with devTab := some exampleLegacyDevTab }

theorem lookupEntry_setEntry {α : Type} (m : List (String × α)) (k k' : String) (v : α) :
    lookupEntry (setEntry m k v) k' = if k' = k then some v else lookupEntry m k' := by
  induction m with
  | nil =>
    simp only [setEntry, lookupEntry, beq_iff_eq]
    by_cases h : k = k'
    · rw [if_pos h, if_pos h.symm]
    · rw [if_neg h, if_neg (fun hh => h hh.symm)]
  | cons kv rest ih =>
    obtain ⟨k0, v0⟩ := kv
    by_cases h1 : k0 = k
    · subst h1
      simp only [setEntry, beq_self_eq_true, if_true, lookupEntry, beq_iff_eq]
      by_cases h2 : k0 = k'
      · rw [if_pos h2, if_pos h2.symm]
      · rw [if_neg h2, if_neg (fun hh : k' = k0 => h2 hh.symm), if_neg h2]
    · simp only [setEntry, beq_iff_eq, h1, if_false, lookupEntry]
      by_cases h2 : k0 = k'
      · rw [if_pos h2, if_neg (fun hh : k' = k => h1 (h2.trans hh)), if_pos h2]
      · rw [if_neg h2, ih]
        by_cases h3 : k' = k
        · rw [if_pos h3, if_pos h3]
        · rw [if_neg h3, if_neg h3, if_neg h2]

theorem lookupEntry_eq_none_of_not_mem {α : Type} (m : List (String × α)) (k : String)
    (h : k ∉ m.map Prod.fst) : lookupEntry m k = none := by
  induction m with
  | nil => rfl
  | cons kv rest ih =>
    simp only [List.map_cons, List.mem_cons] at h
    push_neg at h
    have hb : (kv.1 == k) = false := beq_eq_false_iff_ne.mpr (fun hh => h.1 hh.symm)
    rw [lookupEntry, hb, if_neg (by simp)]
    exact ih h.2

theorem lookupEntry_mem {α : Type} (m : List (String × α)) (k : String) (v : α)
    (h : lookupEntry m k = some v) : (k, v) ∈ m := by
  induction m with
  | nil => simp [lookupEntry] at h
  | cons kv rest ih =>
    obtain ⟨k0, v0⟩ := kv
    by_cases h1 : k0 = k
    · subst h1
      simp only [lookupEntry, beq_self_eq_true, if_true, Option.some.injEq] at h
      subst h
      exact List.mem_cons_self _ _
    · have hb : (k0 == k) = false := beq_eq_false_iff_ne.mpr h1
      rw [lookupEntry, hb, if_neg (by simp)] at h
      exact List.mem_cons_of_mem _ (ih h)

theorem assignAll_lookup {α : Type} (other : List (String × α)) (h : wfKeys other) :
    ∀ (orig : List (String × α)) (k : String),
      lookupEntry (assignAll orig other) k =
        match lookupEntry other k with
        | some v => some v
        | none => lookupEntry orig k := by
  induction other with
  | nil => intro orig k; rfl
  | cons kv rest ih =>
    obtain ⟨k0, v0⟩ := kv
    intro orig k
    have hmap : ((k0 :: rest.map Prod.fst)).Nodup := by
      have hh : wfKeys ((k0, v0) :: rest) := h
      rw [wfKeys, List.map_cons] at hh
      exact hh
    have hpair := List.nodup_cons.mp hmap
    have hrest : wfKeys rest := hpair.2
    have hstep : assignAll orig ((k0, v0) :: rest) = assignAll (setEntry orig k0 v0) rest := rfl
    rw [hstep, ih hrest]
    by_cases hk : k0 = k
    · subst hk
      rw [lookupEntry_eq_none_of_not_mem rest k0 hpair.1]
      simp [lookupEntry, lookupEntry_setEntry]
    · have hb : (k0 == k) = false := beq_eq_false_iff_ne.mpr hk
      cases hr : lookupEntry rest k with
      | some v => simp [lookupEntry, hb, hr]
      | none =>
        simp only [hr, lookupEntry, hb, Bool.false_eq_true, if_false]
        rw [lookupEntry_setEntry, if_neg (fun hh : k = k0 => hk hh.symm)]

theorem setEntry_lookup_isSome {α : Type} (m : List (String × α)) (k k' : String) (v : α)
    (h : (lookupEntry m k').isSome = true) : (lookupEntry (setEntry m k v) k').isSome = true := by
  rw [lookupEntry_setEntry]
  by_cases hk : k' = k
  · rw [if_pos hk]; rfl
  · rw [if_neg hk]; exact h

theorem mergeCollections_lookup (other : ProfileCollection) (h : wfKeys other) :
    ∀ (orig : ProfileCollection) (k : String),
      lookupEntry (mergeCollections orig other) k =
        match lookupEntry other k, lookupEntry orig k with
        | some p, some q => some (mergeProfile q p)
        | some p, none => some p
        | none, _ => lookupEntry orig k := by
  induction other with
  | nil => intro orig k; rfl
  | cons kv rest ih =>
    obtain ⟨k0, p0⟩ := kv
    intro orig k
    have hmap : ((k0 :: rest.map Prod.fst)).Nodup := by
      have hh : wfKeys ((k0, p0) :: rest) := h
      rw [wfKeys, List.map_cons] at hh
      exact hh
    have hpair := List.nodup_cons.mp hmap
    have hrest : wfKeys rest := hpair.2
    have hstep : mergeCollections orig ((k0, p0) :: rest) =
        mergeCollections
          (match lookupEntry orig k0 with
           | some q => setEntry orig k0 (mergeProfile q p0)
           | none => setEntry orig k0 p0) rest := rfl
    rw [hstep, ih hrest]
    by_cases hk : k0 = k
    · subst hk
      rw [lookupEntry_eq_none_of_not_mem rest k0 hpair.1]
      cases ho : lookupEntry orig k0 with
      | some q => simp [lookupEntry, ho, lookupEntry_setEntry]
      | none => simp [lookupEntry, ho, lookupEntry_setEntry]
    · have hb : (k0 == k) = false := beq_eq_false_iff_ne.mpr hk
      have hne : ¬(k = k0) := fun hh => hk hh.symm
      cases hr : lookupEntry rest k with
      | some p =>
        cases ho : lookupEntry orig k0 with
        | some q =>
          simp only [lookupEntry, hb, Bool.false_eq_true, if_false, hr, ho]
          rw [lookupEntry_setEntry, if_neg hne]
        | none =>
          simp only [lookupEntry, hb, Bool.false_eq_true, if_false, hr, ho]
          rw [lookupEntry_setEntry, if_neg hne]
      | none =>
        cases ho : lookupEntry orig k0 with
        | some q =>
          simp only [lookupEntry, hb, Bool.false_eq_true, if_false, hr, ho]
          rw [lookupEntry_setEntry, if_neg hne]
        | none =>
          simp only [lookupEntry, hb, Bool.false_eq_true, if_false, hr, ho]
          rw [lookupEntry_setEntry, if_neg hne]

theorem lookupEntry_defaults_eq_none (id : String) (h1 : id ≠ "dev") (h2 : id ≠ "prod") :
    lookupEntry DEFAULT_PROFILES id = none := by
  have hb1 : (("dev" : String) == id) = false := beq_eq_false_iff_ne.mpr (Ne.symm h1)
  have hb2 : (("prod" : String) == id) = false := beq_eq_false_iff_ne.mpr (Ne.symm h2)
  simp [DEFAULT_PROFILES, lookupEntry, hb1, hb2]

theorem lookupEntry_defaults_hidden (id : String) (d : Profile)
    (h : lookupEntry DEFAULT_PROFILES id = some d) : d.hiddenElements = [] := by
  by_cases h1 : id = "dev"
  · subst h1
    simp [DEFAULT_PROFILES, lookupEntry] at h
    rw [← h]
  · by_cases h2 : id = "prod"
    · subst h2
      simp [DEFAULT_PROFILES, lookupEntry] at h
      rw [← h]
    · rw [lookupEntry_defaults_eq_none id h1 h2] at h
      exact absurd h (by simp)

theorem lookupEntry_defaults_dev :
    lookupEntry DEFAULT_PROFILES "dev"
      = some { name := "CONTROLCONCEALER.profile.dev", hiddenElements := [] } := by decide

theorem lookupEntry_defaults_prod :
    lookupEntry DEFAULT_PROFILES "prod"
      = some { name := "CONTROLCONCEALER.profile.prod", hiddenElements := [] } := by decide

/-- C4: `getProfiles` (the store's `load()`) deep-merges the persisted blob onto
a fresh copy of the built-in defaults: absent persisted data yields exactly the
defaults, a profile id present only in the persisted data is included, a profile
id present only in the defaults is kept unmodified, a profile id present in both
takes its name and its hiddenElements entries from the persisted data, and the
result always contains the built-in `dev` and `prod` profiles. -/
theorem claim4_load_merges_defaults (saved : Option ProfileCollection)
    (hwf : wfColl (saved.getD [])) :
    getProfiles none = DEFAULT_PROFILES
    ∧ (∀ id, lookupEntry (saved.getD []) id = none →
        lookupEntry (getProfiles saved) id = lookupEntry DEFAULT_PROFILES id)
    ∧ (∀ id, lookupEntry DEFAULT_PROFILES id = none →
        lookupEntry (getProfiles saved) id = lookupEntry (saved.getD []) id)
    ∧ (∀ id p sel, lookupEntry (saved.getD []) id = some p →
        (lookupEntry DEFAULT_PROFILES id).isSome = true →
        (lookupEntry (getProfiles saved) id).map Profile.name = some p.name
        ∧ (lookupEntry (getProfiles saved) id).map
            (fun q => lookupEntry q.hiddenElements sel)
            = some (lookupEntry p.hiddenElements sel))
    ∧ (lookupEntry (getProfiles saved) "dev").isSome = true
    ∧ (lookupEntry (getProfiles saved) "prod").isSome = true := by
  have hkeys : wfKeys (saved.getD []) := hwf.1
  have hm := mergeCollections_lookup (saved.getD []) hkeys DEFAULT_PROFILES
  refine ⟨rfl, ?_, ?_, ?_, ?_, ?_⟩
  · intro id h
    rw [getProfiles, hm id, h]
  · intro id h
    cases hs : lookupEntry (saved.getD []) id with
    | some p => rw [getProfiles, hm id, hs, h]
    | none => rw [getProfiles, hm id, hs, h]
  · intro id p sel hs hd
    cases hdef : lookupEntry DEFAULT_PROFILES id with
    | none => rw [hdef] at hd; simp at hd
    | some d =>
      have hdh : d.hiddenElements = [] := lookupEntry_defaults_hidden id d hdef
      have hmem : (id, p) ∈ saved.getD [] := lookupEntry_mem _ _ _ hs
      have hwp : wfKeys p.hiddenElements := hwf.2 (id, p) hmem
      have hres : lookupEntry (getProfiles saved) id = some (mergeProfile d p) := by
        rw [getProfiles, hm id, hs, hdef]
      refine ⟨by rw [hres]; rfl, ?_⟩
      rw [hres]
      show some (lookupEntry (assignAll d.hiddenElements p.hiddenElements) sel) = _
      rw [hdh, assignAll_lookup p.hiddenElements hwp]
      cases hp : lookupEntry p.hiddenElements sel with
      | some b => rfl
      | none => rfl
  · cases hs : lookupEntry (saved.getD []) "dev" with
    | some p => rw [getProfiles, hm "dev", hs, lookupEntry_defaults_dev]; rfl
    | none => rw [getProfiles, hm "dev", hs, lookupEntry_defaults_dev]; rfl
  · cases hs : lookupEntry (saved.getD []) "prod" with
    | some p => rw [getProfiles, hm "prod", hs, lookupEntry_defaults_prod]; rfl
    | none => rw [getProfiles, hm "prod", hs, lookupEntry_defaults_prod]; rfl

/-- Witness for C4: the load contract evaluated at a concrete persisted blob. -/
theorem claim4_load_merges_defaults_witness :
    (lookupEntry
        (getProfiles (some [("custom", { name := "Custom", hiddenElements := [("#chat", true)] })]))
        "dev").isSome = true
    ∧ (lookupEntry
        (getProfiles (some [("custom", { name := "Custom", hiddenElements := [("#chat", true)] })]))
        "custom")
      = lookupEntry
          ([("custom", { name := "Custom", hiddenElements := [("#chat", true)] })] :
            ProfileCollection) "custom" :=
  ⟨(claim4_load_merges_defaults
      (some [("custom", { name := "Custom", hiddenElements := [("#chat", true)] })])
      (by decide)).2.2.2.2.1,
   (claim4_load_merges_defaults
      (some [("custom", { name := "Custom", hiddenElements := [("#chat", true)] })])
      (by decide)).2.2.1 "custom" (by decide)⟩

/-- C5 counterexample: for the empty persisted collection, `save` then `load`
does not return the input — the result contains the built-in `dev` profile,
which the input lacks, so the two collections differ at profile id `dev`. -/
theorem claim5_roundtrip_counterexample :
    lookupEntry (getProfiles (some ([] : ProfileCollection))) "dev"
      ≠ lookupEntry ([] : ProfileCollection) "dev" := by decide

/-- C5 (amended): for every well-formed profile collection that contains the
built-in `dev` and `prod` profiles — which is every collection the module ever
saves, since its in-memory collection always comes from `getProfiles` —
`save` followed by `load` returns an equal collection at every profile id and
selector key. -/
theorem claim5_roundtrip (c : ProfileCollection) (hwf : wfColl c)
    (hdev : (lookupEntry c "dev").isSome = true)
    (hprod : (lookupEntry c "prod").isSome = true)
    (id sel : String) :
    (lookupEntry (getProfiles (some c)) id).map Profile.name
      = (lookupEntry c id).map Profile.name
    ∧ (lookupEntry (getProfiles (some c)) id).map (fun p => lookupEntry p.hiddenElements sel)
      = (lookupEntry c id).map (fun p => lookupEntry p.hiddenElements sel) := by
  have hm := mergeCollections_lookup c hwf.1 DEFAULT_PROFILES
  cases hc : lookupEntry c id with
  | none =>
    have h1 : id ≠ "dev" := by
      rintro rfl; rw [hc] at hdev; simp at hdev
    have h2 : id ≠ "prod" := by
      rintro rfl; rw [hc] at hprod; simp at hprod
    have hD := lookupEntry_defaults_eq_none id h1 h2
    refine ⟨?_, ?_⟩ <;> rw [getProfiles, Option.getD_some, hm id, hc, hD]
  | some p =>
    have hmem := lookupEntry_mem c id p hc
    have hwp : wfKeys p.hiddenElements := hwf.2 (id, p) hmem
    cases hdef : lookupEntry DEFAULT_PROFILES id with
    | none =>
      refine ⟨?_, ?_⟩ <;> rw [getProfiles, Option.getD_some, hm id, hc, hdef]
    | some d =>
      have hdh := lookupEntry_defaults_hidden id d hdef
      refine ⟨?_, ?_⟩
      · rw [getProfiles, Option.getD_some, hm id, hc, hdef]; rfl
      · rw [getProfiles, Option.getD_some, hm id, hc, hdef]
        show some (lookupEntry (assignAll d.hiddenElements p.hiddenElements) sel) = _
        rw [hdh, assignAll_lookup p.hiddenElements hwp]
        cases hp : lookupEntry p.hiddenElements sel with
        | some b => simp [hp]
        | none => simp [hp, lookupEntry]

/-- Witness for C5 (amended): the round trip evaluated at the default
collection, profile id `dev` and selector `#chat`. -/
theorem claim5_roundtrip_witness :
    (lookupEntry (getProfiles (some DEFAULT_PROFILES)) "dev").map Profile.name
      = (lookupEntry DEFAULT_PROFILES "dev").map Profile.name
    ∧ (lookupEntry (getProfiles (some DEFAULT_PROFILES)) "dev").map
        (fun p => lookupEntry p.hiddenElements "#chat")
      = (lookupEntry DEFAULT_PROFILES "dev").map
          (fun p => lookupEntry p.hiddenElements "#chat") :=
  claim5_roundtrip DEFAULT_PROFILES (by decide) (by decide) (by decide) "dev" "#chat"

theorem hasTrueMatch_cons (kv : String × Bool) (m : HiddenMap) (sels : List String) :
    hasTrueMatch (kv :: m) sels = ((kv.2 && sels.contains kv.1) || hasTrueMatch m sels) := by
  simp [hasTrueMatch]

theorem addHidden_eq_map (m : HiddenMap) : ∀ dom : List Elem,
    addHidden m dom
      = dom.map (fun e => { e with hidden := e.hidden || hasTrueMatch m e.sels }) := by
  induction m with
  | nil =>
    intro dom
    simp only [addHidden, List.foldl_nil, hasTrueMatch, List.any_nil, Bool.or_false]
    exact (List.map_id dom).symm
  | cons kv rest ih =>
    intro dom
    obtain ⟨s0, b0⟩ := kv
    cases b0 with
    | false =>
      have hstep : addHidden ((s0, false) :: rest) dom = addHidden rest dom := rfl
      rw [hstep, ih]
      congr 1
    | true =>
      have hstep : addHidden ((s0, true) :: rest) dom
          = addHidden rest (addClassBySel s0 dom) := rfl
      rw [hstep, ih, addClassBySel, List.map_map]
      congr 1
      funext e
      obtain ⟨sl, hd⟩ := e
      cases hm : sl.contains s0 <;> simp at hm <;>
        simp [Function.comp, elemMatch, hm, hasTrueMatch_cons]

theorem resetCatalog_then_addHidden (m : HiddenMap) (dom : List Elem) :
    addHidden m (resetCatalog dom) = dom.map (renderElem m) := by
  rw [addHidden_eq_map, resetCatalog, List.map_map]
  congr 1
  funext e
  obtain ⟨sl, hd⟩ := e
  simp only [Function.comp, renderElem, catalogMatched, elemMatch]
  cases hc : UI_SELECTORS.any (fun sel => sl.contains sel) <;> simp [hc]

theorem resetCatalog_idem (dom : List Elem) :
    resetCatalog (resetCatalog dom) = resetCatalog dom := by
  rw [resetCatalog, resetCatalog, List.map_map]
  congr 1
  funext e
  simp only [Function.comp_apply]
  by_cases hc : catalogMatched e = true
  · rw [if_pos hc]
    have h2 : catalogMatched { e with hidden := false } = true := hc
    rw [if_pos h2]
  · rw [if_neg hc, if_neg hc]

theorem renderElem_idem (m : HiddenMap) (e : Elem) :
    renderElem m (renderElem m e) = renderElem m e := by
  obtain ⟨sl, hd⟩ := e
  simp only [renderElem, catalogMatched, elemMatch, hasTrueMatch]
  cases hc : UI_SELECTORS.any (fun sel => sl.contains sel) <;>
    cases ht : m.any (fun kv => kv.2 && sl.contains kv.1) <;>
      simp [hc, ht]

theorem map_renderElem_idem (m : HiddenMap) (dom : List Elem) :
    (dom.map (renderElem m)).map (renderElem m) = dom.map (renderElem m) := by
  rw [List.map_map]
  congr 1
  funext e
  exact renderElem_idem m e

theorem applyProfileRender_dom (st : CCState) :
    (applyProfileRender st).dom = renderDomF st.profiles st.activeProfile st.dom := by
  cases hl : lookupEntry st.profiles st.activeProfile with
  | none => simp [applyProfileRender, renderDomF, hl]
  | some p =>
    cases he : st.editing <;>
      simp [applyProfileRender, renderDomF, hl, he, applyVisualStateDom, resetCatalog_idem,
        resetCatalog_then_addHidden]

theorem applyProfileRender_body (st : CCState) :
    (applyProfileRender st).bodyHideActive
      = renderBodyF st.profiles st.activeProfile st.editing st.bodyHideActive := by
  cases hl : lookupEntry st.profiles st.activeProfile with
  | none => simp [applyProfileRender, renderBodyF, hl]
  | some p => cases he : st.editing <;> simp [applyProfileRender, renderBodyF, hl, he]

theorem renderDomF_idem (profiles : ProfileCollection) (active : String) (dom : List Elem) :
    renderDomF profiles active (renderDomF profiles active dom)
      = renderDomF profiles active dom := by
  cases hl : lookupEntry profiles active with
  | none => simp [renderDomF, hl]
  | some p =>
    simp only [renderDomF, hl]
    exact map_renderElem_idem _ _

theorem renderBodyF_idem (profiles : ProfileCollection) (active : String)
    (editing body : Bool) :
    renderBodyF profiles active editing (renderBodyF profiles active editing body)
      = renderBodyF profiles active editing body := by
  cases hl : lookupEntry profiles active <;> simp [renderBodyF, hl]

theorem applyProfileRender_fields (st : CCState) :
    (applyProfileRender st).editing = st.editing
    ∧ (applyProfileRender st).activeProfile = st.activeProfile
    ∧ (applyProfileRender st).profiles = st.profiles
    ∧ (applyProfileRender st).userActiveFlag = st.userActiveFlag
    ∧ (applyProfileRender st).settingsProfiles = st.settingsProfiles
    ∧ (applyProfileRender st).notifications = st.notifications
    ∧ (applyProfileRender st).devTab = st.devTab
    ∧ (applyProfileRender st).prodTab = st.prodTab
    ∧ (applyProfileRender st).editHandlers = st.editHandlers := by
  cases hl : lookupEntry st.profiles st.activeProfile with
  | none => simp [applyProfileRender, hl]
  | some p => cases he : st.editing <;> simp [applyProfileRender, hl, he]

/-- Rendering a state that agrees with `st₁` on profile data and edit flag and
whose DOM/body state is `st₁`'s render result leaves that result unchanged. -/
theorem applyProfileRender_stable (st₁ st₂ : CCState)
    (hp : st₂.profiles = st₁.profiles) (ha : st₂.activeProfile = st₁.activeProfile)
    (he : st₂.editing = st₁.editing) (hd : st₂.dom = (applyProfileRender st₁).dom)
    (hb : st₂.bodyHideActive = (applyProfileRender st₁).bodyHideActive) :
    (applyProfileRender st₂).dom = (applyProfileRender st₁).dom
    ∧ (applyProfileRender st₂).bodyHideActive = (applyProfileRender st₁).bodyHideActive := by
  constructor
  · rw [applyProfileRender_dom st₂, hp, ha, hd, applyProfileRender_dom st₁]
    exact renderDomF_idem _ _ _
  · rw [applyProfileRender_body st₂, hp, ha, he, hb, applyProfileRender_body st₁]
    exact renderBodyF_idem _ _ _ _

theorem recompute_foldl_lookup (dom : List Elem) :
    ∀ (sels : List String) (init : HiddenMap) (sel : String),
      lookupEntry (sels.foldl (recomputeStep dom) init) sel =
        if sel ∈ sels ∧ 0 < (dom.filter (fun e => elemMatch sel e)).length
        then some (domHasHidden dom sel)
        else lookupEntry init sel := by
  intro sels
  induction sels with
  | nil => intro init sel; simp
  | cons s rest ih =>
    intro init sel
    rw [List.foldl_cons, ih]
    by_cases hpos : 0 < (dom.filter (fun e => elemMatch sel e)).length
    · by_cases hmem : sel ∈ rest
      · rw [if_pos ⟨hmem, hpos⟩, if_pos ⟨List.mem_cons_of_mem s hmem, hpos⟩]
      · rw [if_neg (fun hc => hmem hc.1)]
        by_cases hss : s = sel
        · subst hss
          have hstep : recomputeStep dom init s = setEntry init s (domHasHidden dom s) := by
            simp [recomputeStep, domHasHidden, hpos]
          rw [hstep, lookupEntry_setEntry, if_pos rfl,
            if_pos ⟨List.mem_cons_self s rest, hpos⟩]
        · have hlook : lookupEntry (recomputeStep dom init s) sel = lookupEntry init sel := by
            simp only [recomputeStep]
            by_cases hp2 : 0 < (dom.filter (fun e => elemMatch s e)).length
            · rw [if_pos hp2, lookupEntry_setEntry, if_neg (fun hh : sel = s => hss hh.symm)]
            · rw [if_neg hp2]
          rw [hlook, if_neg (fun hc => (List.mem_cons.mp hc.1).elim
            (fun hh => hss hh.symm) hmem)]
    · rw [if_neg (fun hc => hpos hc.2), if_neg (fun hc => hpos hc.2)]
      by_cases hss : s = sel
      · subst hss
        have hstep : recomputeStep dom init s = init := by
          simp [recomputeStep, hpos]
        rw [hstep]
      · have hlook : lookupEntry (recomputeStep dom init s) sel = lookupEntry init sel := by
          simp only [recomputeStep]
          by_cases hp2 : 0 < (dom.filter (fun e => elemMatch s e)).length
          · rw [if_pos hp2, lookupEntry_setEntry, if_neg (fun hh : sel = s => hss hh.symm)]
          · rw [if_neg hp2]
        rw [hlook]

theorem recomputeHidden_lookup (dom : List Elem) (sel : String) :
    lookupEntry (recomputeHidden dom) sel =
      if sel ∈ UI_SELECTORS ∧ 0 < (dom.filter (fun e => elemMatch sel e)).length
      then some (domHasHidden dom sel) else none := by
  rw [recomputeHidden, recompute_foldl_lookup]
  rfl

/-- On the Editing → Viewing transition, the active profile id is unchanged and
the collection is updated (and persisted) with the freshly recomputed map. -/
theorem toggleEditMode_exit_profiles (st : CCState) (he : st.editing = true) :
    (toggleEditMode st).activeProfile = st.activeProfile
    ∧ (toggleEditMode st).profiles
        = setEntry st.profiles st.activeProfile
            { name := ((lookupEntry st.profiles st.activeProfile).map Profile.name).getD "",
              hiddenElements := recomputeHidden st.dom }
    ∧ (toggleEditMode st).settingsProfiles = some (toggleEditMode st).profiles := by
  have h2 : toggleEditMode st = applyProfileRender
      { saveCurrentProfile { st with editing := false } with
        bodyHideActive := true,
        notifications := (saveCurrentProfile { st with editing := false }).notifications
          ++ [infoEditModeEnd],
        editHandlers := false } := by
    simp [toggleEditMode, he, applyProfileStep]
  have hf := applyProfileRender_fields
    { saveCurrentProfile { st with editing := false } with
      bodyHideActive := true,
      notifications := (saveCurrentProfile { st with editing := false }).notifications
        ++ [infoEditModeEnd],
      editHandlers := false }
  refine ⟨?_, ?_, ?_⟩
  · rw [h2, hf.2.1]
    rfl
  · rw [h2, hf.2.2.1]
    rfl
  · rw [h2, hf.2.2.2.2.1, hf.2.2.1]
    rfl

/-- C2: while editing, `applyProfile` with a profile id reports a user-visible
error and performs no state change: active profile, per-user flag, profile
collection, persisted blob and DOM are all untouched. -/
theorem claim2_switch_rejected_while_editing (st : CCState) (pid : String)
    (h : st.editing = true) :
    (applyProfileStep st (some pid)).activeProfile = st.activeProfile
    ∧ (applyProfileStep st (some pid)).userActiveFlag = st.userActiveFlag
    ∧ (applyProfileStep st (some pid)).profiles = st.profiles
    ∧ (applyProfileStep st (some pid)).settingsProfiles = st.settingsProfiles
    ∧ (applyProfileStep st (some pid)).dom = st.dom
    ∧ (applyProfileStep st (some pid)).notifications
        = st.notifications ++ [errEditActive] := by
  simp [applyProfileStep, h]

/-- Witness for C2 at a concrete editing state. -/
theorem claim2_switch_rejected_while_editing_witness :
    (applyProfileStep { exampleState with editing := true } (some "dev")).activeProfile
        = { exampleState with editing := true }.activeProfile
    ∧ (applyProfileStep { exampleState with editing := true } (some "dev")).userActiveFlag
        = { exampleState with editing := true }.userActiveFlag
    ∧ (applyProfileStep { exampleState with editing := true } (some "dev")).profiles
        = { exampleState with editing := true }.profiles
    ∧ (applyProfileStep { exampleState with editing := true } (some "dev")).settingsProfiles
        = { exampleState with editing := true }.settingsProfiles
    ∧ (applyProfileStep { exampleState with editing := true } (some "dev")).dom
        = { exampleState with editing := true }.dom
    ∧ (applyProfileStep { exampleState with editing := true } (some "dev")).notifications
        = { exampleState with editing := true }.notifications ++ [errEditActive] :=
  claim2_switch_rejected_while_editing { exampleState with editing := true } "dev" (by decide)

/-- C6: `applyProfile` is idempotent on the visible state: a second call with
the same argument (hence the same profile and editing flag) leaves the
marker-class state of the DOM and the body-level indicator unchanged. -/
theorem claim6_apply_idempotent (st : CCState) (arg : Option String) :
    (applyProfileStep (applyProfileStep st arg) arg).dom = (applyProfileStep st arg).dom
    ∧ (applyProfileStep (applyProfileStep st arg) arg).bodyHideActive
        = (applyProfileStep st arg).bodyHideActive := by
  cases arg with
  | none =>
    exact applyProfileRender_stable st (applyProfileRender st)
      (applyProfileRender_fields st).2.2.1 (applyProfileRender_fields st).2.1
      (applyProfileRender_fields st).1 rfl rfl
  | some pid =>
    cases he : st.editing with
    | true => simp [applyProfileStep, he]
    | false =>
      have hstep1 : applyProfileStep st (some pid)
          = applyProfileRender
              (if (lookupEntry st.profiles pid).isSome
               then { st with activeProfile := pid, userActiveFlag := some pid } else st) := by
        simp [applyProfileStep, he]
      have hr1e : (applyProfileStep st (some pid)).editing = false := by
        rw [hstep1, (applyProfileRender_fields _).1]
        by_cases hs : (lookupEntry st.profiles pid).isSome
        · rw [if_pos hs]; exact he
        · rw [if_neg hs]; exact he
      have hr1p : (applyProfileStep st (some pid)).profiles = st.profiles := by
        rw [hstep1, (applyProfileRender_fields _).2.2.1]
        by_cases hs : (lookupEntry st.profiles pid).isSome
        · rw [if_pos hs]
        · rw [if_neg hs]
      have hd1 : (applyProfileStep st (some pid)).dom
          = renderDomF st.profiles
              (if (lookupEntry st.profiles pid).isSome then pid else st.activeProfile)
              st.dom := by
        rw [hstep1, applyProfileRender_dom]
        by_cases hs : (lookupEntry st.profiles pid).isSome
        · rw [if_pos hs, if_pos hs]
        · rw [if_neg hs, if_neg hs]
      have hb1 : (applyProfileStep st (some pid)).bodyHideActive
          = renderBodyF st.profiles
              (if (lookupEntry st.profiles pid).isSome then pid else st.activeProfile)
              st.editing st.bodyHideActive := by
        rw [hstep1, applyProfileRender_body]
        by_cases hs : (lookupEntry st.profiles pid).isSome
        · rw [if_pos hs, if_pos hs]
        · rw [if_neg hs, if_neg hs]
      have hr1a : (applyProfileStep st (some pid)).activeProfile
          = (if (lookupEntry st.profiles pid).isSome then pid else st.activeProfile) := by
        rw [hstep1, (applyProfileRender_fields _).2.1]
        by_cases hs : (lookupEntry st.profiles pid).isSome
        · rw [if_pos hs, if_pos hs]
        · rw [if_neg hs, if_neg hs]
      have hstep2 : applyProfileStep (applyProfileStep st (some pid)) (some pid)
          = applyProfileRender
              (if (lookupEntry st.profiles pid).isSome
               then { applyProfileStep st (some pid) with
                      activeProfile := pid, userActiveFlag := some pid }
               else applyProfileStep st (some pid)) := by
        rw [show applyProfileStep (applyProfileStep st (some pid)) (some pid)
            = (if (applyProfileStep st (some pid)).editing = true
               then { applyProfileStep st (some pid) with
                      notifications := (applyProfileStep st (some pid)).notifications
                        ++ [errEditActive] }
               else applyProfileRender
                 (if (lookupEntry (applyProfileStep st (some pid)).profiles pid).isSome
                  then { applyProfileStep st (some pid) with
                         activeProfile := pid, userActiveFlag := some pid }
                  else applyProfileStep st (some pid))) from rfl]
        rw [hr1e, hr1p]
        rw [if_neg (by simp)]
      constructor
      · rw [hstep2]
        by_cases hs : (lookupEntry st.profiles pid).isSome
        · rw [if_pos hs, applyProfileRender_dom]
          show renderDomF (applyProfileStep st (some pid)).profiles pid
              (applyProfileStep st (some pid)).dom = _
          rw [hr1p, hd1, if_pos hs, renderDomF_idem]
        · rw [if_neg hs, applyProfileRender_dom, hr1p, hr1a, hd1, if_neg hs,
            renderDomF_idem]
      · rw [hstep2]
        by_cases hs : (lookupEntry st.profiles pid).isSome
        · rw [if_pos hs, applyProfileRender_body]
          show renderBodyF (applyProfileStep st (some pid)).profiles pid
              ((applyProfileStep st (some pid)).editing)
              ((applyProfileStep st (some pid)).bodyHideActive) = _
          rw [hr1p, hr1e, hb1, if_pos hs, he, renderBodyF_idem]
        · rw [if_neg hs, applyProfileRender_body, hr1p, hr1a, hr1e, hb1, if_neg hs, he,
            renderBodyF_idem]

/-- C10: `applyProfile` with an unknown profile id while not editing raises no
error and issues no notification, leaves the active profile and the per-user
flag unchanged, and is exactly the plain re-render of the current profile. -/
theorem claim10_unknown_profile_noop (st : CCState) (pid : String)
    (he : st.editing = false) (hu : lookupEntry st.profiles pid = none) :
    applyProfileStep st (some pid) = applyProfileStep st none
    ∧ (applyProfileStep st (some pid)).notifications = st.notifications
    ∧ (applyProfileStep st (some pid)).activeProfile = st.activeProfile
    ∧ (applyProfileStep st (some pid)).userActiveFlag = st.userActiveFlag := by
  have h1 : applyProfileStep st (some pid) = applyProfileRender st := by
    simp [applyProfileStep, he, hu]
  have hf := applyProfileRender_fields st
  exact ⟨by rw [h1]; rfl, by rw [h1]; exact hf.2.2.2.2.2.1, by rw [h1]; exact hf.2.1,
    by rw [h1]; exact hf.2.2.2.1⟩

/-- Witness for C10: an unknown id on the default collection. -/
theorem claim10_unknown_profile_noop_witness :
    applyProfileStep exampleState (some "nope") = applyProfileStep exampleState none
    ∧ (applyProfileStep exampleState (some "nope")).notifications = exampleState.notifications
    ∧ (applyProfileStep exampleState (some "nope")).activeProfile = exampleState.activeProfile
    ∧ (applyProfileStep exampleState (some "nope")).userActiveFlag
        = exampleState.userActiveFlag :=
  claim10_unknown_profile_noop exampleState "nope" (by decide) (by decide)

/-- C7: entering edit mode clears the body-level hidden indicator — so every
element, catalog-matched or not, is visible regardless of its marker class —
and touches neither the in-memory profile collection nor the persisted blob;
persistence happens only on the exit transition, which writes the updated
collection. -/
theorem claim7_enter_edit_isolation (st : CCState) (he : st.editing = false) :
    (toggleEditMode st).editing = true
    ∧ (toggleEditMode st).bodyHideActive = false
    ∧ (∀ e, e ∈ (toggleEditMode st).dom →
        elemVisible (toggleEditMode st).bodyHideActive e = true)
    ∧ (toggleEditMode st).profiles = st.profiles
    ∧ (toggleEditMode st).settingsProfiles = st.settingsProfiles
    ∧ (∀ st2 : CCState, st2.editing = true →
        (toggleEditMode st2).settingsProfiles = some (toggleEditMode st2).profiles) := by
  have h2 : toggleEditMode st = applyProfileRender
      { st with
        editing := true,
        bodyHideActive := false,
        notifications := st.notifications ++ [infoEditModeActive],
        editHandlers := true,
        dom := applyVisualStateDom st.profiles st.activeProfile st.dom } := by
    simp [toggleEditMode, he, applyProfileStep]
  have hf := applyProfileRender_fields
    { st with
      editing := true,
      bodyHideActive := false,
      notifications := st.notifications ++ [infoEditModeActive],
      editHandlers := true,
      dom := applyVisualStateDom st.profiles st.activeProfile st.dom }
  have hbody : (toggleEditMode st).bodyHideActive = false := by
    rw [h2, applyProfileRender_body]
    cases hl : lookupEntry st.profiles st.activeProfile with
    | none => simp [renderBodyF, hl]
    | some p => simp [renderBodyF, hl]
  refine ⟨?_, hbody, ?_, ?_, ?_, ?_⟩
  · rw [h2, hf.1]
  · intro e _
    rw [hbody]
    rfl
  · rw [h2, hf.2.2.1]
  · rw [h2, hf.2.2.2.2.1]
  · intro s hs
    exact (toggleEditMode_exit_profiles s hs).2.2

/-- Witness for C7 at a concrete viewing state. -/
theorem claim7_enter_edit_isolation_witness :
    (toggleEditMode exampleState).editing = true
    ∧ (toggleEditMode exampleState).bodyHideActive = false
    ∧ (∀ e, e ∈ (toggleEditMode exampleState).dom →
        elemVisible (toggleEditMode exampleState).bodyHideActive e = true)
    ∧ (toggleEditMode exampleState).profiles = exampleState.profiles
    ∧ (toggleEditMode exampleState).settingsProfiles = exampleState.settingsProfiles
    ∧ (∀ st2 : CCState, st2.editing = true →
        (toggleEditMode st2).settingsProfiles = some (toggleEditMode st2).profiles) :=
  claim7_enter_edit_isolation exampleState (by decide)

/-- C1 counterexample: with profile `prod` having `#chat := true` and a live
DOM in which `#chat` matches zero elements, the Editing → Viewing transition
records no entry at all for the catalog selector `#chat` — the recomputed map
yields `none` there, not the `some false` the claim requires. -/
theorem claim1_exit_recompute_counterexample :
    (lookupEntry (toggleEditMode claim1State).profiles "prod").map
        (fun p => lookupEntry p.hiddenElements "#chat") = some none
    ∧ (lookupEntry (toggleEditMode claim1State).profiles "prod").map
        (fun p => lookupEntry p.hiddenElements "#chat") ≠ some (some false) := by
  constructor
  · decide
  · decide

/-- C1 (amended): on the Editing → Viewing transition the active profile's
hiddenElements is rebuilt from live DOM state: a catalog selector matching at
least one element gets the recomputed hasClass boolean; a catalog selector
matching zero elements gets no entry at all (the key is absent from the fresh
map, which the data model reads as false — the stale old value is never
preserved, since the fresh map replaces the old one); the updated collection is
persisted. -/
theorem claim1_exit_recompute (st : CCState) (he : st.editing = true) :
    (toggleEditMode st).activeProfile = st.activeProfile
    ∧ (∀ sel, sel ∈ UI_SELECTORS →
        (lookupEntry (toggleEditMode st).profiles st.activeProfile).map
          (fun p => lookupEntry p.hiddenElements sel)
          = some (if 0 < (st.dom.filter (fun e => elemMatch sel e)).length
              then some (domHasHidden st.dom sel) else none))
    ∧ (∀ sel, sel ∈ UI_SELECTORS →
        (lookupEntry (toggleEditMode st).profiles st.activeProfile).map
          (fun p => (lookupEntry p.hiddenElements sel).getD false)
          = some (domHasHidden st.dom sel))
    ∧ (toggleEditMode st).settingsProfiles = some (toggleEditMode st).profiles := by
  obtain ⟨hact, hprof, hpers⟩ := toggleEditMode_exit_profiles st he
  refine ⟨hact, ?_, ?_, hpers⟩
  · intro sel hsel
    rw [hprof, lookupEntry_setEntry, if_pos rfl]
    show some (lookupEntry (recomputeHidden st.dom) sel) = _
    rw [recomputeHidden_lookup]
    by_cases hpos : 0 < (st.dom.filter (fun e => elemMatch sel e)).length
    · rw [if_pos (⟨hsel, hpos⟩ : sel ∈ UI_SELECTORS ∧ _), if_pos hpos]
    · rw [if_neg (fun hc => hpos hc.2), if_neg hpos]
  · intro sel hsel
    rw [hprof, lookupEntry_setEntry, if_pos rfl]
    show some ((lookupEntry (recomputeHidden st.dom) sel).getD false) = _
    rw [recomputeHidden_lookup]
    by_cases hpos : 0 < (st.dom.filter (fun e => elemMatch sel e)).length
    · rw [if_pos (⟨hsel, hpos⟩ : sel ∈ UI_SELECTORS ∧ _)]
      rfl
    · rw [if_neg (fun hc => hpos hc.2)]
      have hlen : (st.dom.filter (fun e => elemMatch sel e)).length = 0 := by omega
      have hempty : st.dom.filter (fun e => elemMatch sel e) = [] :=
        List.length_eq_zero.mp hlen
      rw [show domHasHidden st.dom sel
          = (st.dom.filter (fun e => elemMatch sel e)).any (fun e => e.hidden) from rfl, hempty]
      rfl

/-- Witness for C1 (amended) at the concrete state, selector `#chat`. -/
theorem claim1_exit_recompute_witness :
    (toggleEditMode claim1State).activeProfile = claim1State.activeProfile
    ∧ (lookupEntry (toggleEditMode claim1State).profiles claim1State.activeProfile).map
        (fun p => lookupEntry p.hiddenElements "#chat")
        = some (if 0 < (claim1State.dom.filter (fun e => elemMatch "#chat" e)).length
            then some (domHasHidden claim1State.dom "#chat") else none)
    ∧ (lookupEntry (toggleEditMode claim1State).profiles claim1State.activeProfile).map
        (fun p => (lookupEntry p.hiddenElements "#chat").getD false)
        = some (domHasHidden claim1State.dom "#chat")
    ∧ (toggleEditMode claim1State).settingsProfiles
        = some (toggleEditMode claim1State).profiles :=
  ⟨(claim1_exit_recompute claim1State rfl).1,
   (claim1_exit_recompute claim1State rfl).2.1 "#chat" (by decide),
   (claim1_exit_recompute claim1State rfl).2.2.1 "#chat" (by decide),
   (claim1_exit_recompute claim1State rfl).2.2.2⟩

/-- C9: after the Editing → Viewing transition the active profile's
hiddenElements contains only catalog keys: any selector outside the static
catalog (for example a legacy-migrated nth-child selector) has no entry,
because the fresh map is built solely from UI_SELECTORS and replaces the old
map entirely. -/
theorem claim9_recompute_keys_in_catalog (st : CCState) (he : st.editing = true)
    (sel : String) (hsel : sel ∉ UI_SELECTORS) :
    (lookupEntry (toggleEditMode st).profiles (toggleEditMode st).activeProfile).map
      (fun p => lookupEntry p.hiddenElements sel) = some none := by
  obtain ⟨hact, hprof, hpers⟩ := toggleEditMode_exit_profiles st he
  rw [hact, hprof, lookupEntry_setEntry, if_pos rfl]
  show some (lookupEntry (recomputeHidden st.dom) sel) = some none
  rw [recomputeHidden_lookup, if_neg (fun hc => hsel hc.1)]

/-- Witness for C9: a legacy nth-child selector is gone after the exit
recompute. -/
theorem claim9_recompute_keys_in_catalog_witness :
    (lookupEntry (toggleEditMode claim1State).profiles
        (toggleEditMode claim1State).activeProfile).map
      (fun p => lookupEntry p.hiddenElements ".scene-control:nth-child(2)") = some none :=
  claim9_recompute_keys_in_catalog claim1State rfl ".scene-control:nth-child(2)" (by decide)

theorem setEntry_keepTrue (m : HiddenMap) (k k' : String)
    (h : lookupEntry m k = some true) :
    lookupEntry (setEntry m k' true) k = some true := by
  rw [lookupEntry_setEntry]
  by_cases hk : k = k'
  · rw [if_pos hk]
  · rw [if_neg hk]; exact h

theorem ite_setEntry_keepTrue (cond : Prop) [Decidable cond] (m : HiddenMap)
    (key k : String) (h : lookupEntry m k = some true) :
    lookupEntry (if cond then setEntry m key true else m) k = some true := by
  by_cases hc : cond
  · rw [if_pos hc]; exact setEntry_keepTrue m k key h
  · rw [if_neg hc]; exact h

theorem foldl_keepTrue {β : Type} (step : HiddenMap → β → HiddenMap)
    (hstep : ∀ acc b k, lookupEntry acc k = some true →
      lookupEntry (step acc b) k = some true)
    (l : List β) : ∀ (acc : HiddenMap) (k : String),
      lookupEntry acc k = some true → lookupEntry (l.foldl step acc) k = some true := by
  induction l with
  | nil => intro acc k h; exact h
  | cons b rest ih =>
    intro acc k h
    rw [List.foldl_cons]
    exact ih (step acc b) k (hstep acc b k h)

theorem foldl_estabTrue {β : Type} (step : HiddenMap → β → HiddenMap)
    (hstep : ∀ acc b k, lookupEntry acc k = some true →
      lookupEntry (step acc b) k = some true)
    (l : List β) (b0 : β) (k : String)
    (hset : ∀ acc, lookupEntry (step acc b0) k = some true) :
    ∀ acc : HiddenMap, b0 ∈ l → lookupEntry (l.foldl step acc) k = some true := by
  induction l with
  | nil => intro acc h; exact absurd h (List.not_mem_nil b0)
  | cons b rest ih =>
    intro acc hmem
    rw [List.foldl_cons]
    rcases List.mem_cons.mp hmem with hb | hb
    · rw [← hb]
      exact foldl_keepTrue step hstep rest (step acc b0) k (hset acc)
    · exact ih (step acc b) hb

theorem convertControlsStep_keepTrue (acc : HiddenMap) (b : Nat × LegacyControl)
    (k : String) (h : lookupEntry acc k = some true) :
    lookupEntry (convertControlsStep acc b) k = some true :=
  ite_setEntry_keepTrue _ acc _ k h

theorem convertToolsStep_keepTrue (acc : HiddenMap) (b : Nat × LegacyTools)
    (k : String) (h : lookupEntry acc k = some true) :
    lookupEntry (convertToolsStep acc b) k = some true := by
  simp only [convertToolsStep]
  by_cases hc : 0 < b.2.keys.length
  · rw [if_pos hc]
    cases ht : b.2.tools with
    | none => exact h
    | some tools =>
      exact foldl_keepTrue _
        (fun acc2 jt k2 h2 => ite_setEntry_keepTrue _ acc2 _ k2 h2) tools.enum acc k h
  · rw [if_neg hc]; exact h

theorem convertTabsStep_keepTrue (acc : HiddenMap) (t : String)
    (k : String) (h : lookupEntry acc k = some true) :
    lookupEntry (convertTabsStep acc t) k = some true :=
  setEntry_keepTrue acc k _ h

theorem convert_controls_mem (tab : LegacyTab) (i : Nat) (cd : LegacyControl)
    (hmem : (i, cd) ∈ tab.hiddencontrols.enum) (hne : 0 < cd.keys.length) :
    lookupEntry (convertLegacyTab tab) (sceneControlSelector (i + 1)) = some true := by
  have h1 : lookupEntry (tab.hiddencontrols.enum.foldl convertControlsStep [])
      (sceneControlSelector (i + 1)) = some true := by
    refine foldl_estabTrue convertControlsStep convertControlsStep_keepTrue _ (i, cd) _
      ?_ [] hmem
    intro acc
    simp only [convertControlsStep]
    rw [if_pos hne, lookupEntry_setEntry, if_pos rfl]
  have h2 := foldl_keepTrue convertToolsStep convertToolsStep_keepTrue
    tab.hiddentools.enum _ _ h1
  exact foldl_keepTrue convertTabsStep convertTabsStep_keepTrue tab.hiddentabs _ _ h2

theorem convert_tools_mem (tab : LegacyTab) (ci : Nat) (td : LegacyTools)
    (tools : List LegacyControl) (ti : Nat) (tool : LegacyControl)
    (hmem : (ci, td) ∈ tab.hiddentools.enum) (hk : 0 < td.keys.length)
    (ht : td.tools = some tools) (hmem2 : (ti, tool) ∈ tools.enum)
    (hk2 : 0 < tool.keys.length) :
    lookupEntry (convertLegacyTab tab) (toolSelector (ci + 1) (ti + 1)) = some true := by
  have h2 : lookupEntry (tab.hiddentools.enum.foldl convertToolsStep
      (tab.hiddencontrols.enum.foldl convertControlsStep []))
      (toolSelector (ci + 1) (ti + 1)) = some true := by
    refine foldl_estabTrue convertToolsStep convertToolsStep_keepTrue _ (ci, td) _
      ?_ _ hmem
    intro acc
    simp only [convertToolsStep]
    rw [if_pos hk, ht]
    refine foldl_estabTrue
      (fun acc2 jt =>
        if 0 < jt.2.keys.length then setEntry acc2 (toolSelector (ci + 1) (jt.1 + 1)) true
        else acc2)
      (fun acc2 jt k2 h2 => ite_setEntry_keepTrue _ acc2 _ k2 h2)
      tools.enum (ti, tool) _ ?_ acc hmem2
    intro acc2
    simp only []
    rw [if_pos hk2, lookupEntry_setEntry, if_pos rfl]
  exact foldl_keepTrue convertTabsStep convertTabsStep_keepTrue tab.hiddentabs _ _ h2

theorem convert_tabs_mem (tab : LegacyTab) (t : String) (hmem : t ∈ tab.hiddentabs) :
    lookupEntry (convertLegacyTab tab) (sidebarTabSelector t) = some true := by
  refine foldl_estabTrue convertTabsStep convertTabsStep_keepTrue _ t _ ?_ _ hmem
  intro acc
  show lookupEntry (setEntry acc (sidebarTabSelector t) true) _ = some true
  rw [lookupEntry_setEntry, if_pos rfl]

/-- C3: legacy migration sets `.scene-control:nth-child(i+1)` for every
non-empty control descriptor at index `i`, the compound tool selector for every
non-empty tool descriptor, and the sidebar-tab selector for every legacy hidden
tab; on the spec's concrete scenario it produces exactly the two expected keys,
overwrites the `dev` profile with them, and deletes the legacy flags. -/
theorem claim3_migration (tab : LegacyTab) :
    (∀ i cd, (i, cd) ∈ tab.hiddencontrols.enum → 0 < cd.keys.length →
      lookupEntry (convertLegacyTab tab) (sceneControlSelector (i + 1)) = some true)
    ∧ (∀ ci td tools ti tool, (ci, td) ∈ tab.hiddentools.enum → 0 < td.keys.length →
        td.tools = some tools → (ti, tool) ∈ tools.enum → 0 < tool.keys.length →
        lookupEntry (convertLegacyTab tab) (toolSelector (ci + 1) (ti + 1)) = some true)
    ∧ (∀ t ∈ tab.hiddentabs,
        lookupEntry (convertLegacyTab tab) (sidebarTabSelector t) = some true)
    ∧ convertLegacyTab exampleLegacyDevTab
        = [(".scene-control:nth-child(2)", true),
           ("#sidebar-tabs .item[data-tab=\"chat\"]", true)]
    ∧ (migrateOldFormat exampleMigrationState).devTab = none
    ∧ (migrateOldFormat exampleMigrationState).prodTab = none
    ∧ lookupEntry (migrateOldFormat exampleMigrationState).profiles "dev"
        = some { name := "CONTROLCONCEALER.profile.dev",
                 hiddenElements := [(".scene-control:nth-child(2)", true),
                                    ("#sidebar-tabs .item[data-tab=\"chat\"]", true)] } := by
  refine ⟨?_, ?_, ?_, by decide, by decide, by decide, by decide⟩
  · intro i cd hmem hne
    exact convert_controls_mem tab i cd hmem hne
  · intro ci td tools ti tool h1 h2 h3 h4 h5
    exact convert_tools_mem tab ci td tools ti tool h1 h2 h3 h4 h5
  · intro t ht
    exact convert_tabs_mem tab t ht

/-- Witness for C3: the general conversion rules evaluated on concrete legacy
tabs at concrete indices. -/
theorem claim3_migration_witness :
    lookupEntry (convertLegacyTab exampleLegacyDevTab) (sceneControlSelector (1 + 1))
      = some true
    ∧ lookupEntry (convertLegacyTab exampleLegacyToolsTab) (toolSelector (0 + 1) (1 + 1))
      = some true
    ∧ lookupEntry (convertLegacyTab exampleLegacyDevTab) (sidebarTabSelector "chat")
      = some true :=
  ⟨(claim3_migration exampleLegacyDevTab).1 1 { keys := ["icon", "name", "title"] }
      (by decide) (by decide),
   (claim3_migration exampleLegacyToolsTab).2.1 0
      { keys := ["tools"], tools := some [{ keys := [] }, { keys := ["icon"] }] }
      [{ keys := [] }, { keys := ["icon"] }] 1 { keys := ["icon"] }
      (by decide) (by decide) (by decide) (by decide) (by decide),
   (claim3_migration exampleLegacyDevTab).2.2.1 "chat" (by decide)⟩

/-- C8: when neither legacy flag is present, `migrateOldFormat` is a silent
no-op: the whole state — profiles, persisted blob, flags, notifications — is
returned unchanged, and no error is raised (the function is total). -/
theorem claim8_no_legacy_noop (st : CCState)
    (h1 : st.devTab = none) (h2 : st.prodTab = none) :
    migrateOldFormat st = st := by
  simp [migrateOldFormat, h1, h2]

/-- Witness for C8 at a concrete state without legacy flags. -/
theorem claim8_no_legacy_noop_witness : migrateOldFormat exampleState = exampleState :=
  claim8_no_legacy_noop exampleState rfl rfl

end ControlConcealer

